import Mathlib

/-!
# VXLAN egress classifier (`plugins/vxlan/ebpf/vxlan_egress.c`)

A shallow embedding of the traffic-control classifier `cls_main` and of the
three pinned hash maps declared in `plugins/vxlan/ebpf/maps.h`.

Conventions of the embedding:

* a packet is the byte sequence found in `[data, data_end)`; `data` is an
  arbitrary base address and `data_end = data + length`, so the bounds are
  valid by construction;
* a load from the packet returns `Option`: `none` is an access outside
  `[data, data_end)`;
* `__u32` / `__u16` values are natural numbers, packet bytes are `Fin 256`;
* the byte order of the machine running the program is a parameter;
* the kernel helpers are modelled by their visible effect: each call is
  appended to an event log kept next to the three maps; the return value
  of `bpf_skb_set_tunnel_key` is decided by the platform and is a parameter.
-/

namespace VxlanEgress

/-! ## Constants from the kernel headers and from `maps.h` -/

/-- Verdict `TC_ACT_UNSPEC` of `linux/pkt_cls.h`. -/
def TC_ACT_UNSPEC : Int := -1

/-- Verdict `TC_ACT_OK` of `linux/pkt_cls.h`. -/
def TC_ACT_OK : Int := 0

/-- Verdict `TC_ACT_SHOT` of `linux/pkt_cls.h`. -/
def TC_ACT_SHOT : Int := 2

/-- EtherType `ETH_P_IP` of `linux/if_ether.h`. -/
def ETH_P_IP : Nat := 0x0800

/-- Flag `BPF_F_ZERO_CSUM_TX` of `linux/bpf.h`, which is `1ULL << 1`. -/
def BPF_F_ZERO_CSUM_TX : Nat := 2

/-- The default tunnel id, `#define DEFAULT_TUNNEL_ID 13190` in `maps.h`. -/
def DEFAULT_TUNNEL_ID : Nat := 13190

/-- The value of `sizeof(struct ethhdr)`: two 6-byte MAC addresses and `h_proto`. -/
def sizeof_ethhdr : Nat := 14

/-- The value of `sizeof(struct iphdr)`. -/
def sizeof_iphdr : Nat := 20

/-- Offset of `h_proto` inside `struct ethhdr`. -/
def offsetof_h_proto : Nat := 12

/-- Offset of `saddr` inside `struct iphdr`. -/
def offsetof_saddr : Nat := 12

/-- Offset of `daddr` inside `struct iphdr`. -/
def offsetof_daddr : Nat := 16

/-! ## Byte order -/

/-- Byte order of the machine the classifier runs on. -/
inductive Endian where
  | little
  | big
deriving DecidableEq, Repr

/-- Value of a 16-bit object whose bytes in memory are `b0 b1`. -/
def mem16 (e : Endian) (b0 b1 : Fin 256) : Nat :=
  match e with
  | Endian.little => b0.val + b1.val * 2 ^ 8
  | Endian.big => b0.val * 2 ^ 8 + b1.val

/-- Value of a 32-bit object whose bytes in memory are `b0 b1 b2 b3`. -/
def mem32 (e : Endian) (b0 b1 b2 b3 : Fin 256) : Nat :=
  match e with
  | Endian.little => b0.val + b1.val * 2 ^ 8 + b2.val * 2 ^ 16 + b3.val * 2 ^ 24
  | Endian.big => b0.val * 2 ^ 24 + b1.val * 2 ^ 16 + b2.val * 2 ^ 8 + b3.val

/-- Byte swap of a 16-bit value. -/
def bswap16 (x : Nat) : Nat :=
  (x % 2 ^ 8) * 2 ^ 8 + (x / 2 ^ 8) % 2 ^ 8

/-- Byte swap of a 32-bit value. -/
def bswap32 (x : Nat) : Nat :=
  (x % 2 ^ 8) * 2 ^ 24 + ((x / 2 ^ 8) % 2 ^ 8) * 2 ^ 16
    + ((x / 2 ^ 16) % 2 ^ 8) * 2 ^ 8 + (x / 2 ^ 24) % 2 ^ 8

/-- The kernel's `__constant_htons`: a swap on a little-endian machine, the
identity on a big-endian one. -/
def __constant_htons (e : Endian) (x : Nat) : Nat :=
  match e with
  | Endian.little => bswap16 x
  | Endian.big => x

/-- The libc `htonl`: a swap on a little-endian machine, the identity on a
big-endian one. -/
def htonl (e : Endian) (x : Nat) : Nat :=
  match e with
  | Endian.little => bswap32 x
  | Endian.big => x

/-! ## Data model of `maps.h` -/

/-- Key of `ding_lxc`: `struct endpointKey`. -/
structure endpointKey where
  ip : Nat
deriving DecidableEq, Repr

/-- Value of `ding_lxc`: `struct endpointInfo`. -/
structure endpointInfo where
  ifIndex : Nat
  lxcIfIndex : Nat
  mac : List (Fin 256)
  nodeMac : List (Fin 256)
deriving DecidableEq, Repr

/-- Key of `ding_ip`: `struct podNodeKey`. -/
structure podNodeKey where
  ip : Nat
deriving DecidableEq, Repr

/-- Value of `ding_ip`: `struct podNodeValue`. -/
structure podNodeValue where
  ip : Nat
deriving DecidableEq, Repr

/-- Key of `ding_local`: `struct localNodeMapKey`. -/
structure localNodeMapKey where
  type : Nat
deriving DecidableEq, Repr

/-- Value of `ding_local`: `struct localNodeMapValue`. -/
structure localNodeMapValue where
  ifIndex : Nat
deriving DecidableEq, Repr

/-- Contents of a `BPF_MAP_TYPE_HASH` map: the live entries; a lookup returns
the value of the first entry with the given key. -/
abbrev BpfHashMap (K V : Type) := List (K × V)

/-- The three maps of `maps.h`. -/
inductive MapId where
  | ding_lxc
  | ding_ip
  | ding_local
deriving DecidableEq, Repr

/-- The kernel's `struct bpf_tunnel_key` (`linux/bpf.h`). The unions
`remote_ipv4`/`remote_ipv6[4]` and `local_ipv4`/`local_ipv6[4]` are kept as
their four 32-bit words, the IPv4 member being word 0; `tunnel_ext` shares
its two bytes with `tunnel_flags`. -/
structure bpf_tunnel_key where
  tunnel_id : Nat
  remote_ipv6 : List Nat
  tunnel_tos : Nat
  tunnel_ttl : Nat
  tunnel_ext : Nat
  tunnel_label : Nat
  local_ipv6 : List Nat
deriving DecidableEq, Repr

/-- The value of `sizeof(struct bpf_tunnel_key)`, field by field. -/
def sizeof_bpf_tunnel_key : Nat := 4 + 16 + 1 + 1 + 2 + 4 + 16

/-- Member `remote_ipv4` of the first union. -/
def bpf_tunnel_key.remote_ipv4 (k : bpf_tunnel_key) : Nat :=
  k.remote_ipv6.getD 0 0

/-- Member `local_ipv4` of the last union. -/
def bpf_tunnel_key.local_ipv4 (k : bpf_tunnel_key) : Nat :=
  k.local_ipv6.getD 0 0

/-- Assignment `key.remote_ipv4 = v`: word 0 of the union is overwritten. -/
def bpf_tunnel_key.set_remote_ipv4 (k : bpf_tunnel_key) (v : Nat) : bpf_tunnel_key :=
  { k with remote_ipv6 := k.remote_ipv6.set 0 v }

/-- Result of `__builtin_memset(&key, 0x0, sizeof(key))`: every byte of the
structure is zero. -/
def bpf_tunnel_key.memset_zero : bpf_tunnel_key :=
  { tunnel_id := 0, remote_ipv6 := [0, 0, 0, 0], tunnel_tos := 0, tunnel_ttl := 0,
    tunnel_ext := 0, tunnel_label := 0, local_ipv6 := [0, 0, 0, 0] }

/-! ## Packet buffer -/

/-- The part of `struct __sk_buff` the classifier uses: the address `data`
and the bytes of the packet; `data_end` is the address one past the last. -/
structure __sk_buff where
  data : Nat
  pkt : List (Fin 256)
deriving DecidableEq, Repr

/-- Address one past the last packet byte. -/
def __sk_buff.data_end (skb : __sk_buff) : Nat :=
  skb.data + skb.pkt.length

/-- The byte stored at address `addr`, when `addr` lies in `[data, data_end)`. -/
def __sk_buff.byte_at (skb : __sk_buff) (addr : Nat) : Option (Fin 256) :=
  if addr < skb.data then none else skb.pkt[addr - skb.data]?

/-! ## Observable effects -/

/-- What an invocation does besides returning a verdict. -/
inductive Event where
  /-- a load of `width` bytes from the packet at address `addr` -/
  | load (addr width : Nat)
  /-- a call of `bpf_map_lookup_elem` on map `m` with the key word `key` -/
  | map_lookup (m : MapId) (key : Nat)
  /-- a call of `bpf_skb_set_tunnel_key` with its arguments and its return value -/
  | set_tunnel_key (key : bpf_tunnel_key) (size flags : Nat) (ret : Int)
  /-- a message written by `bpf_printk` -/
  | printk (msg : String)
deriving DecidableEq, Repr

/-- State shared by all invocations: the three pinned maps and the log of
effects so far. -/
structure World where
  ding_lxc : BpfHashMap endpointKey endpointInfo
  ding_ip : BpfHashMap podNodeKey podNodeValue
  ding_local : BpfHashMap localNodeMapKey localNodeMapValue
  log : List Event
deriving DecidableEq, Repr

/-- Append one event to the log. -/
def World.record (w : World) (ev : Event) : World :=
  { w with log := w.log ++ [ev] }

/-- Return value of `bpf_skb_set_tunnel_key` as the platform decides it, from
the packet, the descriptor, its size and the flags: `0` on success, a
negative error code on failure. -/
abbrev TunnelHelper := __sk_buff → bpf_tunnel_key → Nat → Nat → Int

/-! ## Helpers -/

/-- Load of a 16-bit field at address `addr`. -/
def load_u16 (e : Endian) (w : World) (skb : __sk_buff) (addr : Nat) :
    Option (Nat × World) :=
  match skb.byte_at addr, skb.byte_at (addr + 1) with
  | some b0, some b1 => some (mem16 e b0 b1, w.record (Event.load addr 2))
  | _, _ => none

/-- Load of a 32-bit field at address `addr`. -/
def load_u32 (e : Endian) (w : World) (skb : __sk_buff) (addr : Nat) :
    Option (Nat × World) :=
  match skb.byte_at addr, skb.byte_at (addr + 1), skb.byte_at (addr + 2),
      skb.byte_at (addr + 3) with
  | some b0, some b1, some b2, some b3 =>
      some (mem32 e b0 b1 b2 b3, w.record (Event.load addr 4))
  | _, _, _, _ => none

/-- The helper `bpf_map_lookup_elem` on a hash map: a read-only point lookup. -/
def bpf_map_lookup_elem {K V : Type} [BEq K] (m : BpfHashMap K V) (key : K) : Option V :=
  m.lookup key

/-- The helper `bpf_skb_set_tunnel_key`: the call is logged with the value
the platform returns. -/
def bpf_skb_set_tunnel_key (h : TunnelHelper) (w : World) (skb : __sk_buff)
    (key : bpf_tunnel_key) (size flags : Nat) : Int × World :=
  let ret := h skb key size flags
  (ret, w.record (Event.set_tunnel_key key size flags ret))

/-- The helper `bpf_printk`: one message on the trace channel. -/
def bpf_printk (w : World) (msg : String) : World :=
  w.record (Event.printk msg)

/-! ## The classifier -/

/-- The entry point `cls_main` of `vxlan_egress.c`. The result is `none` when
a load leaves the packet, and the verdict with the state afterwards otherwise. -/
def cls_main (e : Endian) (h : TunnelHelper) (w : World) (skb : __sk_buff) :
    Option (Int × World) :=
  let data := skb.data
  let data_end := skb.data_end
  if data + sizeof_ethhdr + sizeof_iphdr > data_end then
    some (TC_ACT_UNSPEC, w)
  else
    let eth := data
    let ip := data + sizeof_ethhdr
    match load_u16 e w skb (eth + offsetof_h_proto) with
    | none => none
    | some (h_proto, w) =>
      if h_proto ≠ __constant_htons e ETH_P_IP then
        some (TC_ACT_UNSPEC, w)
      else
        match load_u32 e w skb (ip + offsetof_saddr) with
        | none => none
        | some (saddr, w) =>
          let _src_ip := htonl e saddr
          match load_u32 e w skb (ip + offsetof_daddr) with
          | none => none
          | some (daddr, w) =>
            let dst_ip := htonl e daddr
            let key0 : podNodeKey := { ip := 0 }
            let key1 : podNodeKey := { key0 with ip := dst_ip }
            let podNode := bpf_map_lookup_elem w.ding_ip key1
            let w := w.record (Event.map_lookup MapId.ding_ip key1.ip)
            match podNode with
            | some node =>
              let _dst_node_ip := node.ip
              let key := bpf_tunnel_key.memset_zero
              let key := key.set_remote_ipv4 node.ip
              let key := { key with tunnel_id := DEFAULT_TUNNEL_ID }
              let key := { key with tunnel_tos := 0 }
              let key := { key with tunnel_ttl := 64 }
              let (ret, w) :=
                bpf_skb_set_tunnel_key h w skb key sizeof_bpf_tunnel_key BPF_F_ZERO_CSUM_TX
              if ret < 0 then
                let w := bpf_printk w "bpf_skb_set_tunnel_key failed"
                some (TC_ACT_SHOT, w)
              else
                some (TC_ACT_OK, w)
            | none => some (TC_ACT_OK, w)

/-! ## Reading the log and the packet as the wire sees them -/

/-- The events an invocation added, given the state before and after. -/
def new_events (w w' : World) : List Event :=
  w'.log.drop w.log.length

/-- The calls of `bpf_skb_set_tunnel_key` in a log: descriptor, size, flags. -/
def tunnel_calls : List Event → List (bpf_tunnel_key × Nat × Nat)
  | [] => []
  | Event.set_tunnel_key key size flags _ :: evs => (key, size, flags) :: tunnel_calls evs
  | _ :: evs => tunnel_calls evs

/-- The messages written by `bpf_printk` in a log. -/
def diagnostics : List Event → List String
  | [] => []
  | Event.printk msg :: evs => msg :: diagnostics evs
  | _ :: evs => diagnostics evs

/-- The table lookups in a log: map and key word. -/
def lookups : List Event → List (MapId × Nat)
  | [] => []
  | Event.map_lookup m key :: evs => (m, key) :: lookups evs
  | _ :: evs => lookups evs

/-- The packet loads in a log: address and width. -/
def loads : List Event → List (Nat × Nat)
  | [] => []
  | Event.load addr width :: evs => (addr, width) :: loads evs
  | _ :: evs => loads evs

/-- The packet byte at offset `off` from `data` (0 past the end). -/
def __sk_buff.wire (skb : __sk_buff) (off : Nat) : Fin 256 :=
  skb.pkt.getD off 0

/-- The EtherType as transmitted: bytes 12 and 13, most significant first. -/
def ether_type (skb : __sk_buff) : Nat :=
  (skb.wire 12).val * 2 ^ 8 + (skb.wire 13).val

/-- The IPv4 destination address a.b.c.d as transmitted at offsets 30..33,
read as the number `a*2^24 + b*2^16 + c*2^8 + d`. -/
def dest_addr (skb : __sk_buff) : Nat :=
  (skb.wire 30).val * 2 ^ 24 + (skb.wire 31).val * 2 ^ 16 + (skb.wire 32).val * 2 ^ 8
    + (skb.wire 33).val

/-- The descriptor `cls_main` builds for the node address `node_ip`: all
zero except `remote_ipv4`, `tunnel_id`, `tunnel_tos` and `tunnel_ttl`. -/
def tunnel_descriptor (node_ip : Nat) : bpf_tunnel_key :=
  { tunnel_id := 13190, remote_ipv6 := [node_ip, 0, 0, 0], tunnel_tos := 0, tunnel_ttl := 64,
    tunnel_ext := 0, tunnel_label := 0, local_ipv6 := [0, 0, 0, 0] }

/-- A verdict that lets the packet through. -/
def is_pass (v : Int) : Prop :=
  v = TC_ACT_UNSPEC ∨ v = TC_ACT_OK

instance (v : Int) : Decidable (is_pass v) :=
  inferInstanceAs (Decidable (v = TC_ACT_UNSPEC ∨ v = TC_ACT_OK))

/-- The state after the three packet loads and the lookup of `cls_main`. -/
def after_lookup (w : World) (skb : __sk_buff) : World :=
  { w with log := w.log ++ [Event.load (skb.data + 12) 2, Event.load (skb.data + 26) 4,
      Event.load (skb.data + 30) 4, Event.map_lookup MapId.ding_ip (dest_addr skb)] }

/-- The verdict written as a function of the packet bytes, the contents of
`ding_ip` and the answer of `bpf_skb_set_tunnel_key` alone. -/
def verdict_of (pkt : List (Fin 256)) (tab : BpfHashMap podNodeKey podNodeValue)
    (outcome : bpf_tunnel_key → Nat → Nat → Int) : Int :=
  let skb : __sk_buff := { data := 0, pkt := pkt }
  if pkt.length < 34 then TC_ACT_UNSPEC
  else if ether_type skb ≠ 0x0800 then TC_ACT_UNSPEC
  else
    match bpf_map_lookup_elem tab { ip := dest_addr skb } with
    | none => TC_ACT_OK
    | some node =>
      if outcome (tunnel_descriptor node.ip) sizeof_bpf_tunnel_key BPF_F_ZERO_CSUM_TX < 0 then
        TC_ACT_SHOT
      else TC_ACT_OK

/-! ## Concrete scenarios -/

/-- The table of the scenario: pod 10.0.2.5 is hosted by node 192.168.1.10;
the other two maps are empty and nothing has been logged. -/
def scenario_world : World :=
  { ding_lxc := [], ding_ip := [({ ip := 0x0A000205 }, { ip := 0xC0A8010A })],
    ding_local := [], log := [] }

/-- A 34-byte IPv4 frame from 10.0.1.7 to `a.b.c.d`, stored at address 4096. -/
def ipv4_frame (a b c d : Fin 256) : __sk_buff :=
  { data := 4096,
    pkt := [0x02, 0x42, 0x0a, 0x00, 0x02, 0x05, 0x02, 0x42, 0x0a, 0x00, 0x01, 0x07, 0x08, 0x00,
      0x45, 0x00, 0x00, 0x14, 0x00, 0x00, 0x00, 0x00, 0x40, 0x11, 0x00, 0x00,
      10, 0, 1, 7, a, b, c, d] }

/-- An ARP request (EtherType 0x0806), 42 bytes, stored at address 4096. -/
def arp_frame : __sk_buff :=
  { data := 4096,
    pkt := [0xff, 0xff, 0xff, 0xff, 0xff, 0xff, 0x02, 0x42, 0x0a, 0x00, 0x01, 0x07, 0x08, 0x06,
      0x00, 0x01, 0x08, 0x00, 0x06, 0x04, 0x00, 0x01, 0x02, 0x42, 0x0a, 0x00, 0x01, 0x07,
      10, 0, 1, 7, 0, 0, 0, 0, 0, 0, 10, 0, 2, 5] }

/-- The IPv4 frame to 10.0.2.5 with its last byte cut off: 33 bytes. -/
def short_frame : __sk_buff :=
  { data := 4096, pkt := (ipv4_frame 10 0 2 5).pkt.take 33 }

/-- A platform on which `bpf_skb_set_tunnel_key` always succeeds. -/
def helper_ok : TunnelHelper := fun _ _ _ _ => 0

/-- A platform on which `bpf_skb_set_tunnel_key` always fails with `-EINVAL`. -/
def helper_fail : TunnelHelper := fun _ _ _ _ => -22

/-- Another frame to `a.b.c.d`: 40 bytes at address 8192, with other MAC
addresses, an IPv4 header with IHL 6, protocol TCP and source 172.16.0.1,
and six more bytes after offset 33. -/
def other_frame (a b c d : Fin 256) : __sk_buff :=
  { data := 8192,
    pkt := [0x02, 0x11, 0x22, 0x33, 0x44, 0x55, 0x02, 0x66, 0x77, 0x88, 0x99, 0xaa, 0x08, 0x00,
      0x46, 0x10, 0x00, 0x1a, 0x12, 0x34, 0x40, 0x00, 0x01, 0x06, 0xab, 0xcd,
      172, 16, 0, 1, a, b, c, d, 0xde, 0xad, 0xbe, 0xef, 0x00, 0x01] }

/-! ## Auxiliary lemmas -/

theorem byte_at_offset (skb : __sk_buff) (k : Nat) (hk : k < skb.pkt.length) :
    skb.byte_at (skb.data + k) = some (skb.wire k) := by
  unfold __sk_buff.byte_at __sk_buff.wire
  simp [List.getD, List.getElem?_eq_getElem hk]

theorem mem16_eq_htons_iff (e : Endian) (b0 b1 : Fin 256) :
    mem16 e b0 b1 = __constant_htons e ETH_P_IP ↔ b0.val * 2 ^ 8 + b1.val = 0x0800 := by
  have h0 := b0.isLt
  have h1 := b1.isLt
  cases e with
  | little =>
    simp only [mem16, __constant_htons, bswap16, ETH_P_IP]
    omega
  | big => simp only [mem16, __constant_htons, ETH_P_IP]

theorem htonl_mem32 (e : Endian) (b0 b1 b2 b3 : Fin 256) :
    htonl e (mem32 e b0 b1 b2 b3)
      = b0.val * 2 ^ 24 + b1.val * 2 ^ 16 + b2.val * 2 ^ 8 + b3.val := by
  have h0 := b0.isLt
  have h1 := b1.isLt
  have h2 := b2.isLt
  have h3 := b3.isLt
  cases e with
  | little =>
    simp only [mem32, htonl, bswap32]
    omega
  | big => simp only [mem32, htonl]

/-- A packet shorter than 34 bytes leaves at the bounds check. -/
theorem cls_main_short (e : Endian) (h : TunnelHelper) (w : World) (skb : __sk_buff)
    (hlen : skb.pkt.length < 34) :
    cls_main e h w skb = some (TC_ACT_UNSPEC, w) := by
  unfold cls_main
  simp only [__sk_buff.data_end, sizeof_ethhdr, sizeof_iphdr]
  rw [if_pos (by omega)]

/-- What `cls_main` computes on a packet of at least 34 bytes, path by path. -/
theorem cls_main_long (e : Endian) (h : TunnelHelper) (w : World) (skb : __sk_buff)
    (hlen : 34 ≤ skb.pkt.length) :
    cls_main e h w skb =
      if ether_type skb ≠ 0x0800 then
        some (TC_ACT_UNSPEC, w.record (Event.load (skb.data + 12) 2))
      else
        match bpf_map_lookup_elem w.ding_ip { ip := dest_addr skb } with
        | none => some (TC_ACT_OK, after_lookup w skb)
        | some node =>
          let ret := h skb (tunnel_descriptor node.ip) sizeof_bpf_tunnel_key BPF_F_ZERO_CSUM_TX
          let w1 := (after_lookup w skb).record
            (Event.set_tunnel_key (tunnel_descriptor node.ip) sizeof_bpf_tunnel_key
              BPF_F_ZERO_CSUM_TX ret)
          if ret < 0 then
            some (TC_ACT_SHOT, w1.record (Event.printk "bpf_skb_set_tunnel_key failed"))
          else
            some (TC_ACT_OK, w1) := by
  have b12 := byte_at_offset skb 12 (by omega)
  have b13 := byte_at_offset skb 13 (by omega)
  have b26 := byte_at_offset skb 26 (by omega)
  have b27 := byte_at_offset skb 27 (by omega)
  have b28 := byte_at_offset skb 28 (by omega)
  have b29 := byte_at_offset skb 29 (by omega)
  have b30 := byte_at_offset skb 30 (by omega)
  have b31 := byte_at_offset skb 31 (by omega)
  have b32 := byte_at_offset skb 32 (by omega)
  have b33 := byte_at_offset skb 33 (by omega)
  unfold cls_main
  simp only [__sk_buff.data_end, sizeof_ethhdr, sizeof_iphdr, offsetof_h_proto,
    offsetof_saddr, offsetof_daddr]
  rw [if_neg (by omega)]
  simp only [load_u16, load_u32, Nat.add_assoc, Nat.reduceAdd, b12, b13, b26, b27, b28, b29,
    b30, b31, b32, b33, htonl_mem32]
  by_cases hp : ether_type skb = 0x0800
  · have hp2 := (mem16_eq_htons_iff e (skb.wire 12) (skb.wire 13)).mpr hp
    simp only [ne_eq, hp2, hp, not_true_eq_false, if_false]
    have hd : (skb.wire 30).val * 2 ^ 24 + ((skb.wire 31).val * 2 ^ 16
        + ((skb.wire 32).val * 2 ^ 8 + (skb.wire 33).val)) = dest_addr skb := by
      unfold dest_addr
      omega
    have hw : (((w.record (Event.load (skb.data + 12) 2)).record
        (Event.load (skb.data + 26) 4)).record (Event.load (skb.data + 30) 4)).record
        (Event.map_lookup MapId.ding_ip (dest_addr skb)) = after_lookup w skb := by
      simp [World.record, after_lookup]
    have ht : (((w.record (Event.load (skb.data + 12) 2)).record
        (Event.load (skb.data + 26) 4)).record (Event.load (skb.data + 30) 4)).ding_ip
        = w.ding_ip := rfl
    rw [hd, hw, ht]
    cases bpf_map_lookup_elem w.ding_ip { ip := dest_addr skb } with
    | none => rfl
    | some node => rfl
  · have hp2 : ¬ mem16 e (skb.wire 12) (skb.wire 13) = __constant_htons e ETH_P_IP :=
      fun hh => hp ((mem16_eq_htons_iff e (skb.wire 12) (skb.wire 13)).mp hh)
    simp only [ne_eq, hp2, hp, not_false_eq_true, if_true]

theorem new_events_append (w w' : World) (evs : List Event) (hlog : w'.log = w.log ++ evs) :
    new_events w w' = evs := by
  simp [new_events, hlog]

theorem new_events_self (w : World) : new_events w w = [] := by
  simp [new_events]

/-- Non-IPv4 path: one load, verdict `TC_ACT_UNSPEC`. -/
theorem cls_main_not_ip (e : Endian) (h : TunnelHelper) (w : World) (skb : __sk_buff)
    (hlen : 34 ≤ skb.pkt.length) (hproto : ether_type skb ≠ 0x0800) :
    ∃ w', cls_main e h w skb = some (TC_ACT_UNSPEC, w') ∧
      w'.ding_lxc = w.ding_lxc ∧ w'.ding_ip = w.ding_ip ∧ w'.ding_local = w.ding_local ∧
      new_events w w' = [Event.load (skb.data + 12) 2] := by
  refine ⟨w.record (Event.load (skb.data + 12) 2), ?_, rfl, rfl, rfl, ?_⟩
  · rw [cls_main_long e h w skb hlen, if_pos hproto]
  · exact new_events_append _ _ _ rfl

/-- Lookup-miss path: three loads and the lookup, verdict `TC_ACT_OK`. -/
theorem cls_main_miss (e : Endian) (h : TunnelHelper) (w : World) (skb : __sk_buff)
    (hlen : 34 ≤ skb.pkt.length) (hproto : ether_type skb = 0x0800)
    (hmiss : bpf_map_lookup_elem w.ding_ip { ip := dest_addr skb } = none) :
    ∃ w', cls_main e h w skb = some (TC_ACT_OK, w') ∧
      w'.ding_lxc = w.ding_lxc ∧ w'.ding_ip = w.ding_ip ∧ w'.ding_local = w.ding_local ∧
      new_events w w' = [Event.load (skb.data + 12) 2, Event.load (skb.data + 26) 4,
        Event.load (skb.data + 30) 4, Event.map_lookup MapId.ding_ip (dest_addr skb)] := by
  refine ⟨after_lookup w skb, ?_, rfl, rfl, rfl, ?_⟩
  · rw [cls_main_long e h w skb hlen, if_neg (by simpa using hproto), hmiss]
  · exact new_events_append _ _ _ rfl

/-- Lookup-hit path with a helper that reports success. -/
theorem cls_main_hit_ok (e : Endian) (h : TunnelHelper) (w : World) (skb : __sk_buff)
    (node : podNodeValue)
    (hlen : 34 ≤ skb.pkt.length) (hproto : ether_type skb = 0x0800)
    (hhit : bpf_map_lookup_elem w.ding_ip { ip := dest_addr skb } = some node)
    (hret : ¬ h skb (tunnel_descriptor node.ip) sizeof_bpf_tunnel_key BPF_F_ZERO_CSUM_TX < 0) :
    ∃ w', cls_main e h w skb = some (TC_ACT_OK, w') ∧
      w'.ding_lxc = w.ding_lxc ∧ w'.ding_ip = w.ding_ip ∧ w'.ding_local = w.ding_local ∧
      new_events w w' = [Event.load (skb.data + 12) 2, Event.load (skb.data + 26) 4,
        Event.load (skb.data + 30) 4, Event.map_lookup MapId.ding_ip (dest_addr skb),
        Event.set_tunnel_key (tunnel_descriptor node.ip) sizeof_bpf_tunnel_key
          BPF_F_ZERO_CSUM_TX
          (h skb (tunnel_descriptor node.ip) sizeof_bpf_tunnel_key BPF_F_ZERO_CSUM_TX)] := by
  refine ⟨(after_lookup w skb).record (Event.set_tunnel_key (tunnel_descriptor node.ip)
    sizeof_bpf_tunnel_key BPF_F_ZERO_CSUM_TX
    (h skb (tunnel_descriptor node.ip) sizeof_bpf_tunnel_key BPF_F_ZERO_CSUM_TX)),
    ?_, rfl, rfl, rfl, ?_⟩
  · rw [cls_main_long e h w skb hlen, if_neg (by simpa using hproto), hhit]
    simp only [if_neg hret]
  · exact new_events_append _ _ _ (by simp [World.record, after_lookup])

/-- Lookup-hit path with a helper that reports an error. -/
theorem cls_main_hit_fail (e : Endian) (h : TunnelHelper) (w : World) (skb : __sk_buff)
    (node : podNodeValue)
    (hlen : 34 ≤ skb.pkt.length) (hproto : ether_type skb = 0x0800)
    (hhit : bpf_map_lookup_elem w.ding_ip { ip := dest_addr skb } = some node)
    (hret : h skb (tunnel_descriptor node.ip) sizeof_bpf_tunnel_key BPF_F_ZERO_CSUM_TX < 0) :
    ∃ w', cls_main e h w skb = some (TC_ACT_SHOT, w') ∧
      w'.ding_lxc = w.ding_lxc ∧ w'.ding_ip = w.ding_ip ∧ w'.ding_local = w.ding_local ∧
      new_events w w' = [Event.load (skb.data + 12) 2, Event.load (skb.data + 26) 4,
        Event.load (skb.data + 30) 4, Event.map_lookup MapId.ding_ip (dest_addr skb),
        Event.set_tunnel_key (tunnel_descriptor node.ip) sizeof_bpf_tunnel_key
          BPF_F_ZERO_CSUM_TX
          (h skb (tunnel_descriptor node.ip) sizeof_bpf_tunnel_key BPF_F_ZERO_CSUM_TX),
        Event.printk "bpf_skb_set_tunnel_key failed"] := by
  refine ⟨((after_lookup w skb).record (Event.set_tunnel_key (tunnel_descriptor node.ip)
    sizeof_bpf_tunnel_key BPF_F_ZERO_CSUM_TX
    (h skb (tunnel_descriptor node.ip) sizeof_bpf_tunnel_key BPF_F_ZERO_CSUM_TX))).record
    (Event.printk "bpf_skb_set_tunnel_key failed"), ?_, rfl, rfl, rfl, ?_⟩
  · rw [cls_main_long e h w skb hlen, if_neg (by simpa using hproto), hhit]
    simp only [if_pos hret]
  · exact new_events_append _ _ _ (by simp [World.record, after_lookup])

theorem ether_type_pkt (skb : __sk_buff) (d : Nat) :
    ether_type { data := d, pkt := skb.pkt } = ether_type skb := rfl

theorem dest_addr_pkt (skb : __sk_buff) (d : Nat) :
    dest_addr { data := d, pkt := skb.pkt } = dest_addr skb := rfl

/-- Every invocation returns; its verdict is `verdict_of` and the three maps
are the same afterwards. -/
theorem cls_main_verdict (e : Endian) (h : TunnelHelper) (w : World) (skb : __sk_buff) :
    ∃ w', cls_main e h w skb = some (verdict_of skb.pkt w.ding_ip (h skb), w') ∧
      w'.ding_lxc = w.ding_lxc ∧ w'.ding_ip = w.ding_ip ∧ w'.ding_local = w.ding_local := by
  unfold verdict_of
  simp only [ether_type_pkt, dest_addr_pkt]
  by_cases hshort : skb.pkt.length < 34
  · exact ⟨w, by rw [cls_main_short e h w skb hshort, if_pos hshort], rfl, rfl, rfl⟩
  · have hlen : 34 ≤ skb.pkt.length := by omega
    rw [if_neg hshort]
    by_cases hproto : ether_type skb = 0x0800
    · rw [if_neg (by simpa using hproto)]
      cases hl : bpf_map_lookup_elem w.ding_ip { ip := dest_addr skb } with
      | none =>
        obtain ⟨w', hrun, h1, h2, h3, _⟩ := cls_main_miss e h w skb hlen hproto hl
        exact ⟨w', hrun, h1, h2, h3⟩
      | some node =>
        by_cases hret :
            h skb (tunnel_descriptor node.ip) sizeof_bpf_tunnel_key BPF_F_ZERO_CSUM_TX < 0
        · obtain ⟨w', hrun, h1, h2, h3, _⟩ :=
            cls_main_hit_fail e h w skb node hlen hproto hl hret
          exact ⟨w', by simpa [hret] using hrun, h1, h2, h3⟩
        · obtain ⟨w', hrun, h1, h2, h3, _⟩ :=
            cls_main_hit_ok e h w skb node hlen hproto hl hret
          exact ⟨w', by simpa [hret] using hrun, h1, h2, h3⟩
    · obtain ⟨w', hrun, h1, h2, h3, _⟩ := cls_main_not_ip e h w skb hlen hproto
      exact ⟨w', by rw [if_pos hproto]; exact hrun, h1, h2, h3⟩

/-- Every invocation returns, along one of four paths; the events it adds
are listed for each. -/
theorem cls_main_cases (e : Endian) (h : TunnelHelper) (w : World) (skb : __sk_buff) :
    ∃ v w', cls_main e h w skb = some (v, w') ∧
      ((skb.pkt.length < 34 ∧ new_events w w' = []) ∨
       (34 ≤ skb.pkt.length ∧ ether_type skb ≠ 0x0800 ∧
          new_events w w' = [Event.load (skb.data + 12) 2]) ∨
       (34 ≤ skb.pkt.length ∧ ether_type skb = 0x0800 ∧
          bpf_map_lookup_elem w.ding_ip { ip := dest_addr skb } = none ∧
          new_events w w' = [Event.load (skb.data + 12) 2, Event.load (skb.data + 26) 4,
            Event.load (skb.data + 30) 4, Event.map_lookup MapId.ding_ip (dest_addr skb)]) ∨
       (∃ node, 34 ≤ skb.pkt.length ∧ ether_type skb = 0x0800 ∧
          bpf_map_lookup_elem w.ding_ip { ip := dest_addr skb } = some node ∧
          ∃ tail, (tail = [] ∨ tail = [Event.printk "bpf_skb_set_tunnel_key failed"]) ∧
            new_events w w' = [Event.load (skb.data + 12) 2, Event.load (skb.data + 26) 4,
              Event.load (skb.data + 30) 4, Event.map_lookup MapId.ding_ip (dest_addr skb),
              Event.set_tunnel_key (tunnel_descriptor node.ip) sizeof_bpf_tunnel_key
                BPF_F_ZERO_CSUM_TX
                (h skb (tunnel_descriptor node.ip) sizeof_bpf_tunnel_key BPF_F_ZERO_CSUM_TX)]
              ++ tail)) := by
  by_cases hshort : skb.pkt.length < 34
  · exact ⟨_, w, cls_main_short e h w skb hshort, Or.inl ⟨hshort, new_events_self w⟩⟩
  · have hlen : 34 ≤ skb.pkt.length := by omega
    by_cases hproto : ether_type skb = 0x0800
    · cases hl : bpf_map_lookup_elem w.ding_ip { ip := dest_addr skb } with
      | none =>
        obtain ⟨w', hrun, _, _, _, hev⟩ := cls_main_miss e h w skb hlen hproto hl
        exact ⟨_, w', hrun, Or.inr (Or.inr (Or.inl ⟨hlen, hproto, rfl, hev⟩))⟩
      | some node =>
        by_cases hret :
            h skb (tunnel_descriptor node.ip) sizeof_bpf_tunnel_key BPF_F_ZERO_CSUM_TX < 0
        · obtain ⟨w', hrun, _, _, _, hev⟩ :=
            cls_main_hit_fail e h w skb node hlen hproto hl hret
          exact ⟨_, w', hrun, Or.inr (Or.inr (Or.inr
            ⟨node, hlen, hproto, rfl, _, Or.inr rfl, by rw [hev]; rfl⟩))⟩
        · obtain ⟨w', hrun, _, _, _, hev⟩ :=
            cls_main_hit_ok e h w skb node hlen hproto hl hret
          exact ⟨_, w', hrun, Or.inr (Or.inr (Or.inr
            ⟨node, hlen, hproto, rfl, _, Or.inl rfl, by rw [hev]; rfl⟩))⟩
    · obtain ⟨w', hrun, _, _, _, hev⟩ := cls_main_not_ip e h w skb hlen hproto
      exact ⟨_, w', hrun, Or.inr (Or.inl ⟨hlen, hproto, hev⟩)⟩

/-- An address inside `[data, data_end)` holds a byte. -/
theorem byte_at_in_bounds (skb : __sk_buff) (addr : Nat)
    (hlo : skb.data ≤ addr) (hhi : addr < skb.data_end) :
    ∃ b, skb.byte_at addr = some b := by
  have hk : addr - skb.data < skb.pkt.length := by
    simp only [__sk_buff.data_end] at hhi
    omega
  have hb := byte_at_offset skb (addr - skb.data) hk
  rw [Nat.add_sub_cancel' hlo] at hb
  exact ⟨_, hb⟩

/-! ## The claims -/

/-- C1: for every packet of at least 34 bytes whose EtherType is IPv4 and
whose destination address has an entry in `ding_ip`, `cls_main` returns and
calls `bpf_skb_set_tunnel_key` exactly once, with `remote_ipv4` equal to the
value stored in the table, `tunnel_id = 13190 = DEFAULT_TUNNEL_ID`,
`tunnel_ttl = 64`, `tunnel_tos = 0`, the size of the descriptor and the flag
`BPF_F_ZERO_CSUM_TX`. -/
theorem c1_hit_sets_tunnel_once (e : Endian) (h : TunnelHelper) (w : World) (skb : __sk_buff)
    (node : podNodeValue)
    (hlen : 34 ≤ skb.pkt.length) (hproto : ether_type skb = 0x0800)
    (hhit : bpf_map_lookup_elem w.ding_ip { ip := dest_addr skb } = some node) :
    ∃ v w' key, cls_main e h w skb = some (v, w') ∧
      tunnel_calls (new_events w w') = [(key, sizeof_bpf_tunnel_key, BPF_F_ZERO_CSUM_TX)] ∧
      key.remote_ipv4 = node.ip ∧ key.tunnel_id = 13190 ∧ key.tunnel_id = DEFAULT_TUNNEL_ID ∧
      key.tunnel_ttl = 64 ∧ key.tunnel_tos = 0 := by
  by_cases hret : h skb (tunnel_descriptor node.ip) sizeof_bpf_tunnel_key BPF_F_ZERO_CSUM_TX < 0
  · obtain ⟨w', hrun, _, _, _, hev⟩ := cls_main_hit_fail e h w skb node hlen hproto hhit hret
    exact ⟨_, w', tunnel_descriptor node.ip, hrun, by rw [hev]; rfl, rfl, rfl, rfl, rfl, rfl⟩
  · obtain ⟨w', hrun, _, _, _, hev⟩ := cls_main_hit_ok e h w skb node hlen hproto hhit hret
    exact ⟨_, w', tunnel_descriptor node.ip, hrun, by rw [hev]; rfl, rfl, rfl, rfl, rfl, rfl⟩

/-- Scenario of C1: with the table 10.0.2.5 -> 192.168.1.10, a packet to
10.0.2.5 gets one descriptor with remote 192.168.1.10, id 13190, ttl 64, tos 0. -/
theorem c1_hit_sets_tunnel_once_witness :
    (34 ≤ (ipv4_frame 10 0 2 5).pkt.length ∧ ether_type (ipv4_frame 10 0 2 5) = 0x0800 ∧
      bpf_map_lookup_elem scenario_world.ding_ip { ip := dest_addr (ipv4_frame 10 0 2 5) }
        = some { ip := 0xC0A8010A }) ∧
    ∃ v w' key, cls_main Endian.little helper_ok scenario_world (ipv4_frame 10 0 2 5)
        = some (v, w') ∧
      tunnel_calls (new_events scenario_world w')
        = [(key, sizeof_bpf_tunnel_key, BPF_F_ZERO_CSUM_TX)] ∧
      key.remote_ipv4 = 0xC0A8010A ∧ key.tunnel_id = 13190 ∧
      key.tunnel_id = DEFAULT_TUNNEL_ID ∧ key.tunnel_ttl = 64 ∧ key.tunnel_tos = 0 :=
  ⟨⟨by decide, by decide, by decide⟩,
    c1_hit_sets_tunnel_once Endian.little helper_ok scenario_world (ipv4_frame 10 0 2 5)
      { ip := 0xC0A8010A } (by decide) (by decide) (by decide)⟩

/-- C2: every invocation returns, and whenever it called
`bpf_skb_set_tunnel_key`: if the helper did not fail (its return value is not
negative) the verdict is a pass verdict and no diagnostic was written; if the
helper failed (negative return value) the verdict is `TC_ACT_SHOT` and exactly
one diagnostic was written. -/
theorem c2_tunnel_outcome_decides (e : Endian) (h : TunnelHelper) (w : World)
    (skb : __sk_buff) :
    ∃ v w', cls_main e h w skb = some (v, w') ∧
      ∀ key size flags ret, Event.set_tunnel_key key size flags ret ∈ new_events w w' →
        (0 ≤ ret → is_pass v ∧ diagnostics (new_events w w') = []) ∧
        (ret < 0 → v = TC_ACT_SHOT ∧ (diagnostics (new_events w w')).length = 1) := by
  by_cases hshort : skb.pkt.length < 34
  · refine ⟨_, w, cls_main_short e h w skb hshort, ?_⟩
    intro key size flags ret hmem
    simp [new_events_self] at hmem
  · have hlen : 34 ≤ skb.pkt.length := by omega
    by_cases hproto : ether_type skb = 0x0800
    · cases hl : bpf_map_lookup_elem w.ding_ip { ip := dest_addr skb } with
      | none =>
        obtain ⟨w', hrun, _, _, _, hev⟩ := cls_main_miss e h w skb hlen hproto hl
        refine ⟨_, w', hrun, ?_⟩
        intro key size flags ret hmem
        simp [hev] at hmem
      | some node =>
        by_cases hret :
            h skb (tunnel_descriptor node.ip) sizeof_bpf_tunnel_key BPF_F_ZERO_CSUM_TX < 0
        · obtain ⟨w', hrun, _, _, _, hev⟩ :=
            cls_main_hit_fail e h w skb node hlen hproto hl hret
          refine ⟨_, w', hrun, ?_⟩
          intro key size flags ret hmem
          simp only [hev, List.mem_cons, List.mem_singleton, Event.set_tunnel_key.injEq,
            reduceCtorEq, false_or, or_false, List.not_mem_nil] at hmem
          obtain ⟨_, _, _, hr⟩ := hmem
          subst hr
          refine ⟨fun hge => absurd hret (by omega), fun _ => ⟨rfl, ?_⟩⟩
          rw [hev]
          rfl
        · obtain ⟨w', hrun, _, _, _, hev⟩ :=
            cls_main_hit_ok e h w skb node hlen hproto hl hret
          refine ⟨_, w', hrun, ?_⟩
          intro key size flags ret hmem
          simp only [hev, List.mem_cons, List.mem_singleton, Event.set_tunnel_key.injEq,
            reduceCtorEq, false_or, or_false, List.not_mem_nil] at hmem
          obtain ⟨_, _, _, hr⟩ := hmem
          subst hr
          refine ⟨fun _ => ⟨Or.inr rfl, ?_⟩, fun hlt => absurd hlt hret⟩
          rw [hev]
          rfl
    · obtain ⟨w', hrun, _, _, _, hev⟩ := cls_main_not_ip e h w skb hlen hproto
      refine ⟨_, w', hrun, ?_⟩
      intro key size flags ret hmem
      simp [hev] at hmem

/-- Scenario of C2: the packet to 10.0.2.5 with the table
10.0.2.5 -> 192.168.1.10. On a platform whose helper returns -22 the call is
in the log, the verdict is `TC_ACT_SHOT` and there is one diagnostic; on a
platform whose helper returns 0 the verdict is a pass verdict and there is
no diagnostic. -/
theorem c2_tunnel_outcome_decides_witness :
    (∃ v w', cls_main Endian.little helper_fail scenario_world (ipv4_frame 10 0 2 5)
        = some (v, w') ∧
      Event.set_tunnel_key (tunnel_descriptor 0xC0A8010A) 44 2 (-22)
        ∈ new_events scenario_world w' ∧
      v = TC_ACT_SHOT ∧ (diagnostics (new_events scenario_world w')).length = 1) ∧
    (∃ v w', cls_main Endian.little helper_ok scenario_world (ipv4_frame 10 0 2 5)
        = some (v, w') ∧
      Event.set_tunnel_key (tunnel_descriptor 0xC0A8010A) 44 2 0
        ∈ new_events scenario_world w' ∧
      is_pass v ∧ diagnostics (new_events scenario_world w') = []) := by
  constructor
  · obtain ⟨v, w', hrun, hall⟩ :=
      c2_tunnel_outcome_decides Endian.little helper_fail scenario_world (ipv4_frame 10 0 2 5)
    have hmem : Event.set_tunnel_key (tunnel_descriptor 0xC0A8010A) 44 2 (-22)
        ∈ new_events scenario_world w' := by
      have hev : cls_main Endian.little helper_fail scenario_world (ipv4_frame 10 0 2 5)
          = some (TC_ACT_SHOT, { scenario_world with log :=
              [Event.load 4108 2, Event.load 4122 4, Event.load 4126 4,
                Event.map_lookup MapId.ding_ip 0x0A000205,
                Event.set_tunnel_key (tunnel_descriptor 0xC0A8010A) 44 2 (-22),
                Event.printk "bpf_skb_set_tunnel_key failed"] }) := by decide
      rw [hev] at hrun
      cases hrun
      decide
    exact ⟨v, w', hrun, hmem, (hall _ _ _ _ hmem).2 (by decide)⟩
  · obtain ⟨v, w', hrun, hall⟩ :=
      c2_tunnel_outcome_decides Endian.little helper_ok scenario_world (ipv4_frame 10 0 2 5)
    have hmem : Event.set_tunnel_key (tunnel_descriptor 0xC0A8010A) 44 2 0
        ∈ new_events scenario_world w' := by
      have hev : cls_main Endian.little helper_ok scenario_world (ipv4_frame 10 0 2 5)
          = some (TC_ACT_OK, { scenario_world with log :=
              [Event.load 4108 2, Event.load 4122 4, Event.load 4126 4,
                Event.map_lookup MapId.ding_ip 0x0A000205,
                Event.set_tunnel_key (tunnel_descriptor 0xC0A8010A) 44 2 0] }) := by decide
      rw [hev] at hrun
      cases hrun
      decide
    exact ⟨v, w', hrun, hmem, (hall _ _ _ _ hmem).1 (by decide)⟩

/-- C3: for every packet of at least 34 bytes whose EtherType is IPv4 and
whose destination address has no entry in `ding_ip`, `cls_main` returns a
pass verdict, does not call `bpf_skb_set_tunnel_key` and writes no diagnostic. -/
theorem c3_miss_passes (e : Endian) (h : TunnelHelper) (w : World) (skb : __sk_buff)
    (hlen : 34 ≤ skb.pkt.length) (hproto : ether_type skb = 0x0800)
    (hmiss : bpf_map_lookup_elem w.ding_ip { ip := dest_addr skb } = none) :
    ∃ v w', cls_main e h w skb = some (v, w') ∧ is_pass v ∧
      tunnel_calls (new_events w w') = [] ∧ diagnostics (new_events w w') = [] := by
  obtain ⟨w', hrun, _, _, _, hev⟩ := cls_main_miss e h w skb hlen hproto hmiss
  exact ⟨_, w', hrun, Or.inr rfl, by rw [hev]; rfl, by rw [hev]; rfl⟩

/-- Scenario of C3: with the table 10.0.2.5 -> 192.168.1.10, a packet to
10.0.3.9 passes with no tunnel descriptor and no diagnostic. -/
theorem c3_miss_passes_witness :
    (34 ≤ (ipv4_frame 10 0 3 9).pkt.length ∧ ether_type (ipv4_frame 10 0 3 9) = 0x0800 ∧
      bpf_map_lookup_elem scenario_world.ding_ip { ip := dest_addr (ipv4_frame 10 0 3 9) }
        = none) ∧
    ∃ v w', cls_main Endian.little helper_fail scenario_world (ipv4_frame 10 0 3 9)
        = some (v, w') ∧ is_pass v ∧
      tunnel_calls (new_events scenario_world w') = [] ∧
      diagnostics (new_events scenario_world w') = [] :=
  ⟨⟨by decide, by decide, by decide⟩,
    c3_miss_passes Endian.little helper_fail scenario_world (ipv4_frame 10 0 3 9)
      (by decide) (by decide) (by decide)⟩

/-- C4: for every packet of at least 34 bytes whose EtherType is not IPv4
(bytes 12..13 are not 0x08 0x00), `cls_main` returns a pass verdict without
any table lookup, without calling `bpf_skb_set_tunnel_key` and without a
diagnostic. -/
theorem c4_non_ipv4_passes (e : Endian) (h : TunnelHelper) (w : World) (skb : __sk_buff)
    (hlen : 34 ≤ skb.pkt.length) (hproto : ether_type skb ≠ 0x0800) :
    ∃ v w', cls_main e h w skb = some (v, w') ∧ is_pass v ∧
      lookups (new_events w w') = [] ∧ tunnel_calls (new_events w w') = [] ∧
      diagnostics (new_events w w') = [] := by
  obtain ⟨w', hrun, _, _, _, hev⟩ := cls_main_not_ip e h w skb hlen hproto
  exact ⟨_, w', hrun, Or.inl rfl, by rw [hev]; rfl, by rw [hev]; rfl, by rw [hev]; rfl⟩

/-- Scenario of C4: an ARP frame (EtherType 0x0806) passes without a lookup. -/
theorem c4_non_ipv4_passes_witness :
    (34 ≤ arp_frame.pkt.length ∧ ether_type arp_frame = 0x0806 ∧
      ether_type arp_frame ≠ 0x0800) ∧
    ∃ v w', cls_main Endian.little helper_fail scenario_world arp_frame = some (v, w') ∧
      is_pass v ∧ lookups (new_events scenario_world w') = [] ∧
      tunnel_calls (new_events scenario_world w') = [] ∧
      diagnostics (new_events scenario_world w') = [] :=
  ⟨⟨by decide, by decide, by decide⟩,
    c4_non_ipv4_passes Endian.little helper_fail scenario_world arp_frame
      (by decide) (by decide)⟩

/-- C5: a packet with `data_end - data < 34` gets a pass verdict, the state
(so each of the three maps) is unchanged, and there is no diagnostic, no
lookup, no `bpf_skb_set_tunnel_key` and no packet load; a packet of exactly
34 bytes passes the bounds check: its EtherType is loaded. -/
theorem c5_short_packet_passes (e : Endian) (h : TunnelHelper) (w : World)
    (skb : __sk_buff) :
    (skb.data_end - skb.data < sizeof_ethhdr + sizeof_iphdr →
      ∃ v w', cls_main e h w skb = some (v, w') ∧ is_pass v ∧
        w'.ding_lxc = w.ding_lxc ∧ w'.ding_ip = w.ding_ip ∧ w'.ding_local = w.ding_local ∧
        diagnostics (new_events w w') = [] ∧ lookups (new_events w w') = [] ∧
        tunnel_calls (new_events w w') = [] ∧ new_events w w' = []) ∧
    (skb.data_end - skb.data = sizeof_ethhdr + sizeof_iphdr →
      ∃ v w', cls_main e h w skb = some (v, w') ∧
        Event.load (skb.data + 12) 2 ∈ new_events w w') := by
  constructor
  · intro hshort
    have hlen : skb.pkt.length < 34 := by
      simp only [__sk_buff.data_end, sizeof_ethhdr, sizeof_iphdr] at hshort
      omega
    refine ⟨_, w, cls_main_short e h w skb hlen, Or.inl rfl, rfl, rfl, rfl, ?_, ?_, ?_, ?_⟩ <;>
      rw [new_events_self] <;> rfl
  · intro hexact
    have hlen : 34 ≤ skb.pkt.length := by
      simp only [__sk_buff.data_end, sizeof_ethhdr, sizeof_iphdr] at hexact
      omega
    by_cases hproto : ether_type skb = 0x0800
    · cases hl : bpf_map_lookup_elem w.ding_ip { ip := dest_addr skb } with
      | none =>
        obtain ⟨w', hrun, _, _, _, hev⟩ := cls_main_miss e h w skb hlen hproto hl
        exact ⟨_, w', hrun, by simp [hev]⟩
      | some node =>
        by_cases hret :
            h skb (tunnel_descriptor node.ip) sizeof_bpf_tunnel_key BPF_F_ZERO_CSUM_TX < 0
        · obtain ⟨w', hrun, _, _, _, hev⟩ :=
            cls_main_hit_fail e h w skb node hlen hproto hl hret
          exact ⟨_, w', hrun, by simp [hev]⟩
        · obtain ⟨w', hrun, _, _, _, hev⟩ :=
            cls_main_hit_ok e h w skb node hlen hproto hl hret
          exact ⟨_, w', hrun, by simp [hev]⟩
    · obtain ⟨w', hrun, _, _, _, hev⟩ := cls_main_not_ip e h w skb hlen hproto
      exact ⟨_, w', hrun, by simp [hev]⟩

/-- Scenario of C5: the 33-byte frame leaves at the bounds check with nothing
done, the 34-byte frame has its EtherType loaded. -/
theorem c5_short_packet_passes_witness :
    (short_frame.data_end - short_frame.data < sizeof_ethhdr + sizeof_iphdr ∧
      ∃ v w', cls_main Endian.little helper_fail scenario_world short_frame = some (v, w') ∧
        is_pass v ∧ w'.ding_lxc = scenario_world.ding_lxc ∧
        w'.ding_ip = scenario_world.ding_ip ∧ w'.ding_local = scenario_world.ding_local ∧
        diagnostics (new_events scenario_world w') = [] ∧
        lookups (new_events scenario_world w') = [] ∧
        tunnel_calls (new_events scenario_world w') = [] ∧
        new_events scenario_world w' = []) ∧
    ((ipv4_frame 10 0 2 5).data_end - (ipv4_frame 10 0 2 5).data
        = sizeof_ethhdr + sizeof_iphdr ∧
      ∃ v w', cls_main Endian.little helper_fail scenario_world (ipv4_frame 10 0 2 5)
          = some (v, w') ∧
        Event.load ((ipv4_frame 10 0 2 5).data + 12) 2 ∈ new_events scenario_world w') :=
  ⟨⟨by decide,
      (c5_short_packet_passes Endian.little helper_fail scenario_world short_frame).1
        (by decide)⟩,
    ⟨by decide,
      (c5_short_packet_passes Endian.little helper_fail scenario_world
        (ipv4_frame 10 0 2 5)).2 (by decide)⟩⟩

/-- C6: every invocation returns, and the verdict is `TC_ACT_SHOT` if and only
if the packet has at least 34 bytes, its EtherType is IPv4, its destination
address is present in `ding_ip` and the call of `bpf_skb_set_tunnel_key`
reported an error (a negative return value); every other verdict is a pass
verdict. -/
theorem c6_drop_iff_tunnel_failure (e : Endian) (h : TunnelHelper) (w : World)
    (skb : __sk_buff) :
    ∃ v w', cls_main e h w skb = some (v, w') ∧
      (v = TC_ACT_SHOT ↔
        (34 ≤ skb.pkt.length ∧ ether_type skb = 0x0800 ∧
          (∃ node, bpf_map_lookup_elem w.ding_ip { ip := dest_addr skb } = some node) ∧
          ∃ key size flags ret,
            Event.set_tunnel_key key size flags ret ∈ new_events w w' ∧ ret < 0)) ∧
      (v = TC_ACT_SHOT ↔
        (34 ≤ skb.pkt.length ∧ ether_type skb = 0x0800 ∧
          ∃ node, bpf_map_lookup_elem w.ding_ip { ip := dest_addr skb } = some node ∧
            h skb (tunnel_descriptor node.ip) sizeof_bpf_tunnel_key BPF_F_ZERO_CSUM_TX < 0)) ∧
      (v ≠ TC_ACT_SHOT → is_pass v) := by
  by_cases hshort : skb.pkt.length < 34
  · refine ⟨_, w, cls_main_short e h w skb hshort, ?_, ?_, fun _ => Or.inl rfl⟩
    · exact ⟨fun hv => absurd hv (by decide), fun hr => absurd hr.1 (by omega)⟩
    · exact ⟨fun hv => absurd hv (by decide), fun hr => absurd hr.1 (by omega)⟩
  · have hlen : 34 ≤ skb.pkt.length := by omega
    by_cases hproto : ether_type skb = 0x0800
    · cases hl : bpf_map_lookup_elem w.ding_ip { ip := dest_addr skb } with
      | none =>
        obtain ⟨w', hrun, _, _, _, hev⟩ := cls_main_miss e h w skb hlen hproto hl
        refine ⟨_, w', hrun, ?_, ?_, fun _ => Or.inr rfl⟩
        · refine ⟨fun hv => absurd hv (by decide), fun hr => ?_⟩
          obtain ⟨_, _, ⟨node, hn⟩, _⟩ := hr
          exact absurd hn (by simp)
        · refine ⟨fun hv => absurd hv (by decide), fun hr => ?_⟩
          obtain ⟨_, _, node, hn, _⟩ := hr
          exact absurd hn (by simp)
      | some node =>
        by_cases hret :
            h skb (tunnel_descriptor node.ip) sizeof_bpf_tunnel_key BPF_F_ZERO_CSUM_TX < 0
        · obtain ⟨w', hrun, _, _, _, hev⟩ :=
            cls_main_hit_fail e h w skb node hlen hproto hl hret
          refine ⟨_, w', hrun, ?_, ?_, fun hne => absurd rfl hne⟩
          · refine ⟨fun _ => ⟨hlen, hproto, ⟨node, rfl⟩, tunnel_descriptor node.ip,
              sizeof_bpf_tunnel_key, BPF_F_ZERO_CSUM_TX, _, ?_, hret⟩, fun _ => rfl⟩
            rw [hev]
            simp
          · exact ⟨fun _ => ⟨hlen, hproto, node, rfl, hret⟩, fun _ => rfl⟩
        · obtain ⟨w', hrun, _, _, _, hev⟩ :=
            cls_main_hit_ok e h w skb node hlen hproto hl hret
          refine ⟨_, w', hrun, ?_, ?_, fun _ => Or.inr rfl⟩
          · refine ⟨fun hv => absurd hv (by decide), fun hr => ?_⟩
            obtain ⟨_, _, _, key, size, flags, ret, hmem, hneg⟩ := hr
            simp only [hev, List.mem_cons, List.mem_singleton, Event.set_tunnel_key.injEq,
              reduceCtorEq, false_or, or_false, List.not_mem_nil] at hmem
            obtain ⟨_, _, _, hr⟩ := hmem
            subst hr
            exact absurd hneg hret
          · refine ⟨fun hv => absurd hv (by decide), fun hr => ?_⟩
            obtain ⟨_, _, node', hn, hneg⟩ := hr
            cases hn
            exact absurd hneg hret
    · obtain ⟨w', hrun, _, _, _, hev⟩ := cls_main_not_ip e h w skb hlen hproto
      refine ⟨_, w', hrun, ?_, ?_, fun _ => Or.inl rfl⟩
      · exact ⟨fun hv => absurd hv (by decide), fun hr => absurd hr.2.1 hproto⟩
      · exact ⟨fun hv => absurd hv (by decide), fun hr => absurd hr.2.1 hproto⟩

/-- C7: for a packet of at least 34 bytes with EtherType IPv4 whose bytes at
offsets 30..33 are a, b, c, d, the value `htonl (ip->daddr)` and the key of
the one lookup `cls_main` makes, in `ding_ip`, are the number
`a*2^24 + b*2^16 + c*2^8 + d`, on a little-endian and on a big-endian machine. -/
theorem c7_lookup_key_host_order (e : Endian) (h : TunnelHelper) (w : World)
    (skb : __sk_buff) (a b c d : Fin 256)
    (hlen : 34 ≤ skb.pkt.length) (hproto : ether_type skb = 0x0800)
    (ha : skb.pkt[30]? = some a) (hb : skb.pkt[31]? = some b)
    (hc : skb.pkt[32]? = some c) (hd : skb.pkt[33]? = some d) :
    htonl e (mem32 e a b c d) = a.val * 2 ^ 24 + b.val * 2 ^ 16 + c.val * 2 ^ 8 + d.val ∧
    ∃ v w', cls_main e h w skb = some (v, w') ∧
      lookups (new_events w w')
        = [(MapId.ding_ip, a.val * 2 ^ 24 + b.val * 2 ^ 16 + c.val * 2 ^ 8 + d.val)] := by
  have hkey : dest_addr skb = a.val * 2 ^ 24 + b.val * 2 ^ 16 + c.val * 2 ^ 8 + d.val := by
    simp [dest_addr, __sk_buff.wire, List.getD, ha, hb, hc, hd]
  refine ⟨htonl_mem32 e a b c d, ?_⟩
  rw [← hkey]
  cases hl : bpf_map_lookup_elem w.ding_ip { ip := dest_addr skb } with
  | none =>
    obtain ⟨w', hrun, _, _, _, hev⟩ := cls_main_miss e h w skb hlen hproto hl
    exact ⟨_, w', hrun, by rw [hev]; rfl⟩
  | some node =>
    by_cases hret :
        h skb (tunnel_descriptor node.ip) sizeof_bpf_tunnel_key BPF_F_ZERO_CSUM_TX < 0
    · obtain ⟨w', hrun, _, _, _, hev⟩ := cls_main_hit_fail e h w skb node hlen hproto hl hret
      exact ⟨_, w', hrun, by rw [hev]; rfl⟩
    · obtain ⟨w', hrun, _, _, _, hev⟩ := cls_main_hit_ok e h w skb node hlen hproto hl hret
      exact ⟨_, w', hrun, by rw [hev]; rfl⟩

/-- Scenario of C7: destination 10.0.2.5 gives the key 0x0A000205 on a
little-endian machine. -/
theorem c7_lookup_key_host_order_witness :
    (34 ≤ (ipv4_frame 10 0 2 5).pkt.length ∧ ether_type (ipv4_frame 10 0 2 5) = 0x0800 ∧
      (ipv4_frame 10 0 2 5).pkt[30]? = some 10 ∧ (ipv4_frame 10 0 2 5).pkt[31]? = some 0 ∧
      (ipv4_frame 10 0 2 5).pkt[32]? = some 2 ∧ (ipv4_frame 10 0 2 5).pkt[33]? = some 5 ∧
      (10 : Fin 256).val * 2 ^ 24 + (0 : Fin 256).val * 2 ^ 16 + (2 : Fin 256).val * 2 ^ 8
        + (5 : Fin 256).val = 0x0A000205) ∧
    (htonl Endian.little (mem32 Endian.little 10 0 2 5)
        = (10 : Fin 256).val * 2 ^ 24 + (0 : Fin 256).val * 2 ^ 16
          + (2 : Fin 256).val * 2 ^ 8 + (5 : Fin 256).val ∧
      ∃ v w', cls_main Endian.little helper_ok scenario_world (ipv4_frame 10 0 2 5)
          = some (v, w') ∧
        lookups (new_events scenario_world w')
          = [(MapId.ding_ip, (10 : Fin 256).val * 2 ^ 24 + (0 : Fin 256).val * 2 ^ 16
              + (2 : Fin 256).val * 2 ^ 8 + (5 : Fin 256).val)]) :=
  ⟨⟨by decide, by decide, by decide, by decide, by decide, by decide, by decide⟩,
    c7_lookup_key_host_order Endian.little helper_ok scenario_world (ipv4_frame 10 0 2 5)
      10 0 2 5 (by decide) (by decide) (by decide) (by decide) (by decide) (by decide)⟩

/-- C8: for every packet and every outcome of `bpf_skb_set_tunnel_key`,
`cls_main` returns and the contents of `ding_lxc`, `ding_ip` and `ding_local`
afterwards equal their contents before. -/
theorem c8_tables_read_only (e : Endian) (h : TunnelHelper) (w : World) (skb : __sk_buff) :
    ∃ v w', cls_main e h w skb = some (v, w') ∧
      w'.ding_lxc = w.ding_lxc ∧ w'.ding_ip = w.ding_ip ∧ w'.ding_local = w.ding_local := by
  obtain ⟨w', hrun, h1, h2, h3⟩ := cls_main_verdict e h w skb
  exact ⟨_, w', hrun, h1, h2, h3⟩

/-- C9: two invocations on the same packet bytes, with the same contents of
`ding_ip` and the same answers of `bpf_skb_set_tunnel_key`, return the same
verdict, whatever the byte order, the other two maps, the log and the packet
address are; and classifying the packet again in the state the first
invocation left gives that verdict again. -/
theorem c9_verdict_deterministic (e1 e2 : Endian) (h1 h2 : TunnelHelper) (w1 w2 : World)
    (skb1 skb2 : __sk_buff)
    (hpkt : skb1.pkt = skb2.pkt) (htab : w1.ding_ip = w2.ding_ip)
    (hout : ∀ key size flags, h1 skb1 key size flags = h2 skb2 key size flags) :
    ∃ v w1' w1'' w2', cls_main e1 h1 w1 skb1 = some (v, w1') ∧
      cls_main e1 h1 w1' skb1 = some (v, w1'') ∧
      cls_main e2 h2 w2 skb2 = some (v, w2') := by
  obtain ⟨w1', hrun1, _, ht1, _⟩ := cls_main_verdict e1 h1 w1 skb1
  obtain ⟨w1'', hrun1', _, _, _⟩ := cls_main_verdict e1 h1 w1' skb1
  obtain ⟨w2', hrun2, _, _, _⟩ := cls_main_verdict e2 h2 w2 skb2
  have hfun : h1 skb1 = h2 skb2 := by
    funext key size flags
    exact hout key size flags
  refine ⟨_, w1', w1'', w2', hrun1, ?_, ?_⟩
  · rw [hrun1', ht1]
  · rw [hrun2, hpkt, htab, hfun]

/-- Scenario of C9: the packet to 10.0.2.5 is dropped on a failing platform,
on a little-endian machine at address 4096 with an empty log and on a
big-endian machine at address 0 after earlier events. -/
theorem c9_verdict_deterministic_witness :
    ((ipv4_frame 10 0 2 5).pkt = ({ (ipv4_frame 10 0 2 5) with data := 0 } : __sk_buff).pkt ∧
      scenario_world.ding_ip
        = ({ scenario_world with log := [Event.printk "earlier"] } : World).ding_ip) ∧
    ∃ v w1' w1'' w2',
      cls_main Endian.little helper_fail scenario_world (ipv4_frame 10 0 2 5)
        = some (v, w1') ∧
      cls_main Endian.little helper_fail w1' (ipv4_frame 10 0 2 5) = some (v, w1'') ∧
      cls_main Endian.big helper_fail { scenario_world with log := [Event.printk "earlier"] }
        { (ipv4_frame 10 0 2 5) with data := 0 } = some (v, w2') :=
  ⟨⟨rfl, rfl⟩,
    c9_verdict_deterministic Endian.little Endian.big helper_fail helper_fail scenario_world
      { scenario_world with log := [Event.printk "earlier"] } (ipv4_frame 10 0 2 5)
      { (ipv4_frame 10 0 2 5) with data := 0 } rfl rfl (fun _ _ _ => rfl)⟩

/-- C10: every invocation returns one of the three codes `TC_ACT_UNSPEC = -1`,
`TC_ACT_OK = 0`, `TC_ACT_SHOT = 2`: `TC_ACT_UNSPEC` when the packet is shorter
than 34 bytes or its EtherType is not IPv4; `TC_ACT_OK` when the lookup misses
and when it hits and `bpf_skb_set_tunnel_key` returns a non-negative value;
`TC_ACT_SHOT` when the lookup hits and the helper returns a negative value.
The code of a miss and of a successful encapsulation differs from the code of
short and non-IPv4 packets. -/
theorem c10_verdict_codes (e : Endian) (h : TunnelHelper) (w : World) (skb : __sk_buff) :
    ∃ v w', cls_main e h w skb = some (v, w') ∧
      (v = TC_ACT_UNSPEC ∨ v = TC_ACT_OK ∨ v = TC_ACT_SHOT) ∧
      (skb.pkt.length < 34 ∨ ether_type skb ≠ 0x0800 → v = TC_ACT_UNSPEC) ∧
      (34 ≤ skb.pkt.length → ether_type skb = 0x0800 →
        bpf_map_lookup_elem w.ding_ip { ip := dest_addr skb } = none → v = TC_ACT_OK) ∧
      (∀ node, 34 ≤ skb.pkt.length → ether_type skb = 0x0800 →
        bpf_map_lookup_elem w.ding_ip { ip := dest_addr skb } = some node →
        0 ≤ h skb (tunnel_descriptor node.ip) sizeof_bpf_tunnel_key BPF_F_ZERO_CSUM_TX →
        v = TC_ACT_OK) ∧
      (∀ node, 34 ≤ skb.pkt.length → ether_type skb = 0x0800 →
        bpf_map_lookup_elem w.ding_ip { ip := dest_addr skb } = some node →
        h skb (tunnel_descriptor node.ip) sizeof_bpf_tunnel_key BPF_F_ZERO_CSUM_TX < 0 →
        v = TC_ACT_SHOT) ∧
      TC_ACT_UNSPEC = -1 ∧ TC_ACT_OK = 0 ∧ TC_ACT_SHOT = 2 ∧ TC_ACT_OK ≠ TC_ACT_UNSPEC := by
  by_cases hshort : skb.pkt.length < 34
  · refine ⟨_, w, cls_main_short e h w skb hshort, Or.inl rfl, fun _ => rfl, ?_, ?_, ?_,
      rfl, rfl, rfl, by decide⟩
    · exact fun hl => absurd hl (by omega)
    · exact fun _ hl => absurd hl (by omega)
    · exact fun _ hl => absurd hl (by omega)
  · have hlen : 34 ≤ skb.pkt.length := by omega
    by_cases hproto : ether_type skb = 0x0800
    · cases hl : bpf_map_lookup_elem w.ding_ip { ip := dest_addr skb } with
      | none =>
        obtain ⟨w', hrun, _, _, _, _⟩ := cls_main_miss e h w skb hlen hproto hl
        refine ⟨_, w', hrun, Or.inr (Or.inl rfl), ?_, fun _ _ _ => rfl,
          fun _ _ _ _ _ => rfl, ?_, rfl, rfl, rfl, by decide⟩
        · rintro (hs | hp)
          · exact absurd hs hshort
          · exact absurd hproto hp
        · intro node' _ _ hn
          exact absurd hn (by simp)
      | some node =>
        by_cases hret :
            h skb (tunnel_descriptor node.ip) sizeof_bpf_tunnel_key BPF_F_ZERO_CSUM_TX < 0
        · obtain ⟨w', hrun, _, _, _, _⟩ :=
            cls_main_hit_fail e h w skb node hlen hproto hl hret
          refine ⟨_, w', hrun, Or.inr (Or.inr rfl), ?_, ?_, ?_, fun _ _ _ _ _ => rfl,
            rfl, rfl, rfl, by decide⟩
          · rintro (hs | hp)
            · exact absurd hs hshort
            · exact absurd hproto hp
          · intro _ _ hn
            exact absurd hn (by simp)
          · intro node' _ _ hn hge
            cases hn
            exact absurd hret (by omega)
        · obtain ⟨w', hrun, _, _, _, _⟩ :=
            cls_main_hit_ok e h w skb node hlen hproto hl hret
          refine ⟨_, w', hrun, Or.inr (Or.inl rfl), ?_, fun _ _ _ => rfl,
            fun _ _ _ _ _ => rfl, ?_, rfl, rfl, rfl, by decide⟩
          · rintro (hs | hp)
            · exact absurd hs hshort
            · exact absurd hproto hp
          · intro node' _ _ hn hneg
            cases hn
            exact absurd hneg hret
    · obtain ⟨w', hrun, _, _, _, _⟩ := cls_main_not_ip e h w skb hlen hproto
      refine ⟨_, w', hrun, Or.inl rfl, fun _ => rfl, ?_, ?_, ?_, rfl, rfl, rfl, by decide⟩
      · exact fun _ hp => absurd hp hproto
      · exact fun _ _ hp => absurd hp hproto
      · exact fun _ _ hp => absurd hp hproto

/-- C11: for every buffer, `cls_main` returns (no load falls outside the
packet), and every load it makes is one of the EtherType at offset 12 (2
bytes), the source address at offset 26 (4 bytes) and the destination address
at offset 30 (4 bytes), lies inside `[data, data_end)` with a byte present
at each of its addresses, and happens only when
`data + 14 + 20 <= data_end`; when that check fails no packet byte is read. -/
theorem c11_no_out_of_bounds_read (e : Endian) (h : TunnelHelper) (w : World)
    (skb : __sk_buff) :
    cls_main e h w skb ≠ none ∧
    ∃ v w', cls_main e h w skb = some (v, w') ∧
      (∀ addr width, (addr, width) ∈ loads (new_events w w') →
        ((addr, width) = (skb.data + 12, 2) ∨ (addr, width) = (skb.data + 26, 4) ∨
          (addr, width) = (skb.data + 30, 4)) ∧
        skb.data ≤ addr ∧ addr + width ≤ skb.data_end ∧
        (∀ k, k < width → ∃ b, skb.byte_at (addr + k) = some b) ∧
        skb.data + sizeof_ethhdr + sizeof_iphdr ≤ skb.data_end) ∧
      (skb.data + sizeof_ethhdr + sizeof_iphdr > skb.data_end →
        loads (new_events w w') = []) := by
  have key : ∀ addr width : Nat, 34 ≤ skb.pkt.length →
      ((addr, width) = (skb.data + 12, 2) ∨ (addr, width) = (skb.data + 26, 4) ∨
        (addr, width) = (skb.data + 30, 4)) →
      ((addr, width) = (skb.data + 12, 2) ∨ (addr, width) = (skb.data + 26, 4) ∨
          (addr, width) = (skb.data + 30, 4)) ∧
        skb.data ≤ addr ∧ addr + width ≤ skb.data_end ∧
        (∀ k, k < width → ∃ b, skb.byte_at (addr + k) = some b) ∧
        skb.data + sizeof_ethhdr + sizeof_iphdr ≤ skb.data_end := by
    intro addr width hlen hor
    have hbounds : skb.data ≤ addr ∧ addr + width ≤ skb.data_end := by
      simp only [__sk_buff.data_end]
      rcases hor with hx | hx | hx <;> cases hx <;> omega
    refine ⟨hor, hbounds.1, hbounds.2, ?_, ?_⟩
    · intro k hk
      exact byte_at_in_bounds skb (addr + k) (by omega) (by omega)
    · simp only [__sk_buff.data_end, sizeof_ethhdr, sizeof_iphdr]
      omega
  obtain ⟨v, w', hrun, hcases⟩ := cls_main_cases e h w skb
  refine ⟨by rw [hrun]; simp, v, w', hrun, ?_, ?_⟩
  · intro addr width hmem
    rcases hcases with ⟨_, hev⟩ | ⟨hlen, _, hev⟩ | ⟨hlen, _, _, hev⟩ |
      ⟨node, hlen, _, _, tail, htail, hev⟩
    · rw [hev] at hmem
      simp [loads] at hmem
    · rw [hev] at hmem
      simp only [loads, List.mem_singleton] at hmem
      exact key addr width hlen (Or.inl hmem)
    · rw [hev] at hmem
      simp only [loads, List.mem_cons, List.mem_singleton, List.not_mem_nil, or_false] at hmem
      exact key addr width hlen hmem
    · rw [hev] at hmem
      rcases htail with ht | ht <;> subst ht <;>
        simp only [List.append_nil, List.cons_append, List.nil_append, loads, List.mem_cons,
          List.mem_singleton, List.not_mem_nil, or_false] at hmem <;>
        exact key addr width hlen hmem
  · intro hfail
    have hshort : skb.pkt.length < 34 := by
      simp only [__sk_buff.data_end, sizeof_ethhdr, sizeof_iphdr] at hfail
      omega
    rcases hcases with ⟨_, hev⟩ | ⟨hlen, _, _⟩ | ⟨hlen, _, _, _⟩ | ⟨node, hlen, _⟩
    · rw [hev]
      rfl
    · omega
    · omega
    · omega

/-- Scenario of C11: on the 34-byte frame at address 4096 the loads are the
2 bytes at 4108 and the 4 bytes at 4122 and at 4126, all inside
`[4096, 4130)`; on the 33-byte frame the check fails and nothing is loaded. -/
theorem c11_no_out_of_bounds_read_witness :
    (∃ v w', cls_main Endian.little helper_ok scenario_world (ipv4_frame 10 0 2 5)
        = some (v, w') ∧
      loads (new_events scenario_world w') = [(4108, 2), (4122, 4), (4126, 4)] ∧
      ∀ addr width, (addr, width) ∈ loads (new_events scenario_world w') →
        4096 ≤ addr ∧ addr + width ≤ 4130) ∧
    (short_frame.data + sizeof_ethhdr + sizeof_iphdr > short_frame.data_end ∧
      ∃ v w', cls_main Endian.little helper_ok scenario_world short_frame = some (v, w') ∧
        loads (new_events scenario_world w') = []) := by
  constructor
  · obtain ⟨_, v, w', hrun, hall, _⟩ :=
      c11_no_out_of_bounds_read Endian.little helper_ok scenario_world (ipv4_frame 10 0 2 5)
    have hloads : loads (new_events scenario_world w') = [(4108, 2), (4122, 4), (4126, 4)] := by
      have hev : cls_main Endian.little helper_ok scenario_world (ipv4_frame 10 0 2 5)
          = some (TC_ACT_OK, { scenario_world with log :=
              [Event.load 4108 2, Event.load 4122 4, Event.load 4126 4,
                Event.map_lookup MapId.ding_ip 0x0A000205,
                Event.set_tunnel_key (tunnel_descriptor 0xC0A8010A) 44 2 0] }) := by decide
      rw [hev] at hrun
      cases hrun
      decide
    exact ⟨v, w', hrun, hloads,
      fun addr width hm => ⟨(hall addr width hm).2.1, (hall addr width hm).2.2.1⟩⟩
  · obtain ⟨_, v, w', hrun, _, hnone⟩ :=
      c11_no_out_of_bounds_read Endian.little helper_ok scenario_world short_frame
    exact ⟨by decide, v, w', hrun, hnone (by decide)⟩

/-- C12: every invocation returns a verdict after at most six effects (three
packet loads, one lookup, one helper call, one message) and makes at most one
table lookup: exactly one, in `ding_ip` with the destination address as key,
when the packet has at least 34 bytes and EtherType IPv4, and none otherwise;
`ding_lxc` and `ding_local` are never queried. -/
theorem c12_bounded_one_lookup (e : Endian) (h : TunnelHelper) (w : World)
    (skb : __sk_buff) :
    ∃ v w', cls_main e h w skb = some (v, w') ∧
      (new_events w w').length ≤ 6 ∧
      (lookups (new_events w w')).length ≤ 1 ∧
      (34 ≤ skb.pkt.length ∧ ether_type skb = 0x0800 →
        lookups (new_events w w') = [(MapId.ding_ip, dest_addr skb)]) ∧
      (¬ (34 ≤ skb.pkt.length ∧ ether_type skb = 0x0800) →
        lookups (new_events w w') = []) ∧
      (∀ m key, (m, key) ∈ lookups (new_events w w') →
        m = MapId.ding_ip ∧ m ≠ MapId.ding_lxc ∧ m ≠ MapId.ding_local) := by
  obtain ⟨v, w', hrun, hcases⟩ := cls_main_cases e h w skb
  refine ⟨v, w', hrun, ?_⟩
  rcases hcases with ⟨hshort, hev⟩ | ⟨hlen, hproto, hev⟩ | ⟨hlen, hproto, _, hev⟩ |
    ⟨node, hlen, hproto, _, tail, htail, hev⟩
  · rw [hev]
    refine ⟨by simp, by simp [lookups], fun hc => absurd hc.1 (by omega), fun _ => rfl, ?_⟩
    intro m key hm
    simp [lookups] at hm
  · rw [hev]
    refine ⟨by simp, by simp [lookups], fun hc => absurd hc.2 hproto, fun _ => rfl, ?_⟩
    intro m key hm
    simp [lookups] at hm
  · rw [hev]
    refine ⟨by simp, by simp [lookups], fun _ => rfl, fun hc => absurd ⟨hlen, hproto⟩ hc, ?_⟩
    intro m key hm
    simp only [lookups, List.mem_singleton, Prod.mk.injEq] at hm
    rw [hm.1]
    exact ⟨rfl, by decide, by decide⟩
  · rw [hev]
    rcases htail with ht | ht <;> subst ht
    · refine ⟨by simp, by simp [lookups], fun _ => rfl,
        fun hc => absurd ⟨hlen, hproto⟩ hc, ?_⟩
      intro m key hm
      simp only [List.append_nil, lookups, List.mem_singleton, Prod.mk.injEq] at hm
      rw [hm.1]
      exact ⟨rfl, by decide, by decide⟩
    · refine ⟨by simp, by simp [lookups], fun _ => rfl,
        fun hc => absurd ⟨hlen, hproto⟩ hc, ?_⟩
      intro m key hm
      simp only [List.cons_append, List.nil_append, lookups, List.mem_singleton,
        Prod.mk.injEq] at hm
      rw [hm.1]
      exact ⟨rfl, by decide, by decide⟩

/-- C13: two packets of at least 34 bytes that agree on the bytes at offsets
12, 13 and 30..33, classified with the same contents of `ding_ip` and the
same answers of `bpf_skb_set_tunnel_key`, get the same verdict and the same
tunnel descriptor (the same list of helper calls); every other byte, the
length beyond 34, the packet address, the byte order, the other two maps and
the log have no influence. -/
theorem c13_irrelevant_bytes_ignored (e1 e2 : Endian) (h1 h2 : TunnelHelper) (w1 w2 : World)
    (skb1 skb2 : __sk_buff)
    (hlen1 : 34 ≤ skb1.pkt.length) (hlen2 : 34 ≤ skb2.pkt.length)
    (h12 : skb1.wire 12 = skb2.wire 12) (h13 : skb1.wire 13 = skb2.wire 13)
    (h30 : skb1.wire 30 = skb2.wire 30) (h31 : skb1.wire 31 = skb2.wire 31)
    (h32 : skb1.wire 32 = skb2.wire 32) (h33 : skb1.wire 33 = skb2.wire 33)
    (htab : w1.ding_ip = w2.ding_ip)
    (hout : ∀ key size flags, h1 skb1 key size flags = h2 skb2 key size flags) :
    ∃ v w1' w2', cls_main e1 h1 w1 skb1 = some (v, w1') ∧
      cls_main e2 h2 w2 skb2 = some (v, w2') ∧
      tunnel_calls (new_events w1 w1') = tunnel_calls (new_events w2 w2') := by
  have hty : ether_type skb2 = ether_type skb1 := by
    simp only [ether_type, h12, h13]
  have hdst : dest_addr skb2 = dest_addr skb1 := by
    simp only [dest_addr, h30, h31, h32, h33]
  by_cases hproto : ether_type skb1 = 0x0800
  · have hproto2 : ether_type skb2 = 0x0800 := by rw [hty]; exact hproto
    cases hl : bpf_map_lookup_elem w1.ding_ip { ip := dest_addr skb1 } with
    | none =>
      have hl2 : bpf_map_lookup_elem w2.ding_ip { ip := dest_addr skb2 } = none := by
        rw [← htab, hdst]; exact hl
      obtain ⟨w1', hrun1, _, _, _, hev1⟩ := cls_main_miss e1 h1 w1 skb1 hlen1 hproto hl
      obtain ⟨w2', hrun2, _, _, _, hev2⟩ := cls_main_miss e2 h2 w2 skb2 hlen2 hproto2 hl2
      exact ⟨_, w1', w2', hrun1, hrun2, by rw [hev1, hev2]; simp [tunnel_calls]⟩
    | some node =>
      have hl2 : bpf_map_lookup_elem w2.ding_ip { ip := dest_addr skb2 } = some node := by
        rw [← htab, hdst]; exact hl
      have hr := hout (tunnel_descriptor node.ip) sizeof_bpf_tunnel_key BPF_F_ZERO_CSUM_TX
      by_cases hret :
          h1 skb1 (tunnel_descriptor node.ip) sizeof_bpf_tunnel_key BPF_F_ZERO_CSUM_TX < 0
      · obtain ⟨w1', hrun1, _, _, _, hev1⟩ :=
          cls_main_hit_fail e1 h1 w1 skb1 node hlen1 hproto hl hret
        obtain ⟨w2', hrun2, _, _, _, hev2⟩ :=
          cls_main_hit_fail e2 h2 w2 skb2 node hlen2 hproto2 hl2 (by rw [← hr]; exact hret)
        exact ⟨_, w1', w2', hrun1, hrun2, by rw [hev1, hev2]; simp [tunnel_calls]⟩
      · obtain ⟨w1', hrun1, _, _, _, hev1⟩ :=
          cls_main_hit_ok e1 h1 w1 skb1 node hlen1 hproto hl hret
        obtain ⟨w2', hrun2, _, _, _, hev2⟩ :=
          cls_main_hit_ok e2 h2 w2 skb2 node hlen2 hproto2 hl2 (by rw [← hr]; exact hret)
        exact ⟨_, w1', w2', hrun1, hrun2, by rw [hev1, hev2]; simp [tunnel_calls]⟩
  · have hproto2 : ether_type skb2 ≠ 0x0800 := by rw [hty]; exact hproto
    obtain ⟨w1', hrun1, _, _, _, hev1⟩ := cls_main_not_ip e1 h1 w1 skb1 hlen1 hproto
    obtain ⟨w2', hrun2, _, _, _, hev2⟩ := cls_main_not_ip e2 h2 w2 skb2 hlen2 hproto2
    exact ⟨_, w1', w2', hrun1, hrun2, by rw [hev1, hev2]; simp [tunnel_calls]⟩

/-- Scenario of C13: the 34-byte frame and the 40-byte frame to 10.0.2.5
differ in MAC addresses, IHL, protocol, source address, payload and length,
and get the same verdict and the same descriptor. -/
theorem c13_irrelevant_bytes_ignored_witness :
    (34 ≤ (ipv4_frame 10 0 2 5).pkt.length ∧ 34 ≤ (other_frame 10 0 2 5).pkt.length ∧
      (ipv4_frame 10 0 2 5).pkt ≠ (other_frame 10 0 2 5).pkt ∧
      (ipv4_frame 10 0 2 5).wire 26 ≠ (other_frame 10 0 2 5).wire 26 ∧
      (ipv4_frame 10 0 2 5).wire 12 = (other_frame 10 0 2 5).wire 12 ∧
      (ipv4_frame 10 0 2 5).wire 13 = (other_frame 10 0 2 5).wire 13 ∧
      (ipv4_frame 10 0 2 5).wire 30 = (other_frame 10 0 2 5).wire 30 ∧
      (ipv4_frame 10 0 2 5).wire 31 = (other_frame 10 0 2 5).wire 31 ∧
      (ipv4_frame 10 0 2 5).wire 32 = (other_frame 10 0 2 5).wire 32 ∧
      (ipv4_frame 10 0 2 5).wire 33 = (other_frame 10 0 2 5).wire 33) ∧
    ∃ v w1' w2',
      cls_main Endian.little helper_ok scenario_world (ipv4_frame 10 0 2 5)
        = some (v, w1') ∧
      cls_main Endian.little helper_ok scenario_world (other_frame 10 0 2 5)
        = some (v, w2') ∧
      tunnel_calls (new_events scenario_world w1')
        = tunnel_calls (new_events scenario_world w2') :=
  ⟨⟨by decide, by decide, by decide, by decide, by decide, by decide, by decide, by decide,
      by decide, by decide⟩,
    c13_irrelevant_bytes_ignored Endian.little Endian.little helper_ok helper_ok
      scenario_world scenario_world (ipv4_frame 10 0 2 5) (other_frame 10 0 2 5)
      (by decide) (by decide) (by decide) (by decide) (by decide) (by decide) (by decide)
      (by decide) rfl (fun _ _ _ => rfl)⟩

/-- C14: every descriptor `cls_main` hands to `bpf_skb_set_tunnel_key` is the
all-zero structure in which only `remote_ipv4`, `tunnel_id`, `tunnel_tos` and
`tunnel_ttl` were assigned: it is passed with the size of the whole
structure, its fields `tunnel_ext`, `tunnel_label`, the local address and the
upper three words of the remote address are zero, and it is a function of
the value found in `ding_ip` for the destination alone. -/
theorem c14_descriptor_fully_determined (e : Endian) (h : TunnelHelper) (w : World)
    (skb : __sk_buff) :
    ∃ v w', cls_main e h w skb = some (v, w') ∧
      ∀ key size flags, (key, size, flags) ∈ tunnel_calls (new_events w w') →
        size = sizeof_bpf_tunnel_key ∧
        (∃ node, bpf_map_lookup_elem w.ding_ip { ip := dest_addr skb } = some node ∧
          key = tunnel_descriptor node.ip ∧
          key = { { { bpf_tunnel_key.memset_zero.set_remote_ipv4 node.ip with
            tunnel_id := DEFAULT_TUNNEL_ID } with tunnel_tos := 0 } with tunnel_ttl := 64 } ∧
          key.remote_ipv4 = node.ip) ∧
        key.tunnel_id = DEFAULT_TUNNEL_ID ∧ key.tunnel_tos = 0 ∧ key.tunnel_ttl = 64 ∧
        key.tunnel_ext = 0 ∧ key.tunnel_label = 0 ∧ key.local_ipv4 = 0 ∧
        key.local_ipv6 = [0, 0, 0, 0] ∧ key.remote_ipv6.drop 1 = [0, 0, 0] := by
  obtain ⟨v, w', hrun, hcases⟩ := cls_main_cases e h w skb
  refine ⟨v, w', hrun, ?_⟩
  intro key size flags hmem
  rcases hcases with ⟨_, hev⟩ | ⟨_, _, hev⟩ | ⟨_, _, _, hev⟩ |
    ⟨node, _, _, hl, tail, htail, hev⟩
  · rw [hev] at hmem
    simp [tunnel_calls] at hmem
  · rw [hev] at hmem
    simp [tunnel_calls] at hmem
  · rw [hev] at hmem
    simp [tunnel_calls] at hmem
  · rw [hev] at hmem
    have hk : key = tunnel_descriptor node.ip ∧ size = sizeof_bpf_tunnel_key := by
      rcases htail with ht | ht <;> subst ht <;>
        simp only [List.append_nil, List.cons_append, List.nil_append, tunnel_calls,
          List.mem_singleton, Prod.mk.injEq] at hmem <;>
        exact ⟨hmem.1, hmem.2.1⟩
    obtain ⟨hkey, hsize⟩ := hk
    subst hkey
    exact ⟨hsize, ⟨node, hl, rfl, rfl, rfl⟩, rfl, rfl, rfl, rfl, rfl, rfl, rfl, rfl⟩

/-- Scenario of C14: for the packet to 10.0.2.5 the descriptor in the log is
the one for 192.168.1.10, with `tunnel_ext`, `tunnel_label` and the local
address zero. -/
theorem c14_descriptor_fully_determined_witness :
    ∃ v w' key, cls_main Endian.big helper_ok scenario_world (ipv4_frame 10 0 2 5)
        = some (v, w') ∧
      (key, 44, 2) ∈ tunnel_calls (new_events scenario_world w') ∧
      key.remote_ipv6 = [0xC0A8010A, 0, 0, 0] ∧ key.tunnel_ext = 0 ∧ key.tunnel_label = 0 ∧
      key.local_ipv4 = 0 ∧ key.local_ipv6 = [0, 0, 0, 0] := by
  obtain ⟨v, w', hrun, hall⟩ :=
    c14_descriptor_fully_determined Endian.big helper_ok scenario_world (ipv4_frame 10 0 2 5)
  have hmem : (tunnel_descriptor 0xC0A8010A, 44, 2)
      ∈ tunnel_calls (new_events scenario_world w') := by
    have hev : cls_main Endian.big helper_ok scenario_world (ipv4_frame 10 0 2 5)
        = some (TC_ACT_OK, { scenario_world with log :=
            [Event.load 4108 2, Event.load 4122 4, Event.load 4126 4,
              Event.map_lookup MapId.ding_ip 0x0A000205,
              Event.set_tunnel_key (tunnel_descriptor 0xC0A8010A) 44 2 0] }) := by decide
    rw [hev] at hrun
    cases hrun
    decide
  have hk := hall _ _ _ hmem
  exact ⟨v, w', tunnel_descriptor 0xC0A8010A, hrun, hmem, rfl, hk.2.2.2.2.2.1,
    hk.2.2.2.2.2.2.1, hk.2.2.2.2.2.2.2.1, hk.2.2.2.2.2.2.2.2.1⟩

end VxlanEgress
